import Mathlib

/-! Shallow embedding of the `studio` repository's error-classification crates
(`glitch-core` and `studio-core`) and its two placeholder Lambda handlers.

The dynamic cause stored in the `Aws` variant (`Option<Box<dyn Error>>` in the
source) is modelled by a type parameter `ε`: the claims quantify over arbitrary
cause values, which the parameter captures without fixing a representation.
-/

/-- Shallow model of a `serde_json::Error` value: the only feature of it that
the error crates observe is its rendered display text, interpolated by the
`#[error("serialization error: {0}")]` attribute. -/
structure SerdeJsonError where
  rendered : String
deriving DecidableEq

/-- The six-variant error enum of `glitch-core/src/error.rs`.  `Aws` carries a
message and an optional boxed cause (`source`), modelled as `Option ε`;
`Serialization` wraps a `serde_json::Error`. -/
inductive GlitchError (ε : Type) : Type where
  | Config : String → GlitchError ε
  | Validation : String → GlitchError ε
  | NotFound : String → GlitchError ε
  | Internal : String → GlitchError ε
  | Aws : String → Option ε → GlitchError ε
  | Serialization : SerdeJsonError → GlitchError ε
deriving DecidableEq

/-- The six-variant error enum of `studio-core/src/error.rs` (textually the
same shape as `GlitchError`, defined separately because the source defines it
separately). -/
inductive StudioError (ε : Type) : Type where
  | Config : String → StudioError ε
  | Validation : String → StudioError ε
  | NotFound : String → StudioError ε
  | Internal : String → StudioError ε
  | Aws : String → Option ε → StudioError ε
  | Serialization : SerdeJsonError → StudioError ε
deriving DecidableEq

variable {ε : Type}

/-- `GlitchError::status_code` from `glitch-core/src/error.rs`. -/
def GlitchError.status_code : GlitchError ε → Nat
  | .Config _ => 500
  | .Validation _ => 400
  | .NotFound _ => 404
  | .Internal _ => 500
  | .Aws _ _ => 502
  | .Serialization _ => 400

/-- `StudioError::status_code` from `studio-core/src/error.rs`. -/
def StudioError.status_code : StudioError ε → Nat
  | .Config _ => 500
  | .Validation _ => 400
  | .NotFound _ => 404
  | .Internal _ => 500
  | .Aws _ _ => 502
  | .Serialization _ => 400

/-- `GlitchError::aws`: builds `Aws { message, source: None }`. -/
def GlitchError.aws (message : String) : GlitchError ε :=
  GlitchError.Aws message none

/-- `GlitchError::aws_with_source`: builds `Aws { message, source: Some(Box::new(source)) }`. -/
def GlitchError.aws_with_source (message : String) (src : ε) : GlitchError ε :=
  GlitchError.Aws message (some src)

/-- `StudioError::aws`: builds `Aws { message, source: None }`. -/
def StudioError.aws (message : String) : StudioError ε :=
  StudioError.Aws message none

/-- `StudioError::aws_with_source`: builds `Aws { message, source: Some(Box::new(source)) }`. -/
def StudioError.aws_with_source (message : String) (src : ε) : StudioError ε :=
  StudioError.Aws message (some src)

/-- The `From<serde_json::Error>` impl generated by `#[from]` on the
`Serialization` variant of `GlitchError`. -/
def GlitchError.fromSerdeJson (e : SerdeJsonError) : GlitchError ε :=
  GlitchError.Serialization e

/-- The `From<serde_json::Error>` impl generated by `#[from]` on the
`Serialization` variant of `StudioError`. -/
def StudioError.fromSerdeJson (e : SerdeJsonError) : StudioError ε :=
  StudioError.Serialization e

/-- The `Display` rendering of a `GlitchError`, generated by the `#[error]`
attributes of the `thiserror` derive: a fixed per-variant label followed by the
stored message (for `Aws`, only the `message` field is interpolated; for
`Serialization`, the wrapped error's display text). -/
def GlitchError.display : GlitchError ε → String
  | .Config m => "configuration error: " ++ m
  | .Validation m => "validation error: " ++ m
  | .NotFound m => "not found: " ++ m
  | .Internal m => "internal error: " ++ m
  | .Aws m _ => "aws error: " ++ m
  | .Serialization e => "serialization error: " ++ e.rendered

/-- The `Display` rendering of a `StudioError` (same `#[error]` attributes). -/
def StudioError.display : StudioError ε → String
  | .Config m => "configuration error: " ++ m
  | .Validation m => "validation error: " ++ m
  | .NotFound m => "not found: " ++ m
  | .Internal m => "internal error: " ++ m
  | .Aws m _ => "aws error: " ++ m
  | .Serialization e => "serialization error: " ++ e.rendered

/-- The variant tag (discriminant) of an error value, abstracting away all
payloads.  Used to state that `status_code` depends on the tag alone. -/
inductive ErrorTag : Type where
  | config | validation | notFound | internal | aws | serialization
deriving DecidableEq

/-- Tag of a `GlitchError`. -/
def GlitchError.tag : GlitchError ε → ErrorTag
  | .Config _ => .config
  | .Validation _ => .validation
  | .NotFound _ => .notFound
  | .Internal _ => .internal
  | .Aws _ _ => .aws
  | .Serialization _ => .serialization

/-- Tag of a `StudioError`. -/
def StudioError.tag : StudioError ε → ErrorTag
  | .Config _ => .config
  | .Validation _ => .validation
  | .NotFound _ => .notFound
  | .Internal _ => .internal
  | .Aws _ _ => .aws
  | .Serialization _ => .serialization

/-- The message field of the `Aws` variant, when the value is that variant. -/
def GlitchError.awsMessage : GlitchError ε → Option String
  | .Aws m _ => some m
  | _ => none

/-- The `source` field of the `Aws` variant, when the value is that variant
and the cause is present. -/
def GlitchError.awsSource : GlitchError ε → Option ε
  | .Aws _ s => s
  | _ => none

/-- The evident variant-for-variant correspondence from `GlitchError` to
`StudioError`. -/
def GlitchError.toStudio : GlitchError ε → StudioError ε
  | .Config m => .Config m
  | .Validation m => .Validation m
  | .NotFound m => .NotFound m
  | .Internal m => .Internal m
  | .Aws m s => .Aws m s
  | .Serialization e => .Serialization e

/-- The inverse correspondence from `StudioError` to `GlitchError`. -/
def StudioError.toGlitch : StudioError ε → GlitchError ε
  | .Config m => .Config m
  | .Validation m => .Validation m
  | .NotFound m => .NotFound m
  | .Internal m => .Internal m
  | .Aws m s => .Aws m s
  | .Serialization e => .Serialization e

/-- Valid characters of an HTTP header name as accepted by the `http` crate
used by `lambda_http` (lowercase letters, digits, and the token symbols). -/
def isValidHeaderNameChar (c : Char) : Bool :=
  (Char.isLower c) || (Char.isDigit c) || c = '-' || c = '_' || c = '.' ||
  c = '!' || c = '#' || c = '$' || c = '%' || c = '&' || c = '*' ||
  c = '+' || c = '^' || c = '|' || c = '~'

/-- A header name is valid when nonempty and made of valid name characters. -/
def isValidHeaderName (s : String) : Bool :=
  (decide (s ≠ "")) && s.data.all isValidHeaderNameChar

/-- Valid characters of an HTTP header value: horizontal tab, or any character
that is not a control character (code 32 and above, excluding delete). -/
def isValidHeaderValueChar (c : Char) : Bool :=
  c.toNat = 9 || (32 ≤ c.toNat && c.toNat ≠ 127)

/-- A header value is valid when made of valid value characters. -/
def isValidHeaderValue (s : String) : Bool :=
  s.data.all isValidHeaderValueChar

/-- An HTTP status code is representable when in the range 100..999. -/
def isValidStatusCode (n : Nat) : Bool :=
  100 ≤ n && n < 1000

/-- The parts accumulated by `Response::builder()` before the body is set. -/
structure ResponseParts where
  status : Nat
  headers : List (String × String)
deriving DecidableEq

/-- An HTTP response as produced by `Builder::body`. -/
structure Response where
  status : Nat
  headers : List (String × String)
  respBody : String
deriving DecidableEq

/-- The `http` crate's response `Builder`: accumulated parts, or the first
recorded construction error. -/
structure Builder where
  state : Except String ResponseParts

/-- `Response::builder()`: status 200, no headers, no pending error. -/
def Response.builder : Builder :=
  ⟨Except.ok ⟨200, []⟩⟩

/-- `Builder::status`: records the status, or an error if it is not a valid
status code. -/
def Builder.status (b : Builder) (n : Nat) : Builder :=
  ⟨b.state.bind fun p =>
    if isValidStatusCode n then Except.ok { p with status := n }
    else Except.error "invalid status code"⟩

/-- `Builder::header`: appends the header, or records an error if the name or
value is invalid. -/
def Builder.header (b : Builder) (name value : String) : Builder :=
  ⟨b.state.bind fun p =>
    if isValidHeaderName name && isValidHeaderValue value then
      Except.ok { p with headers := p.headers ++ [(name, value)] }
    else Except.error "invalid header"⟩

/-- `Builder::body`: finishes the response, propagating any recorded error. -/
def Builder.respBody (b : Builder) (s : String) : Except String Response :=
  b.state.map fun p => ⟨p.status, p.headers, s⟩

/-- An incoming `lambda_http::Request`; both handlers ignore every field. -/
structure Request where
  method : String
  uri : String
  headers : List (String × String)
  reqBody : String

/-- The hard-coded body of the api handler. -/
def apiLambdaBody : String := "\x7b\"message\": \"api lambda ready\"\x7d"

/-- The hard-coded body of the media-upload handler. -/
def mediaUploadLambdaBody : String := "\x7b\"message\": \"media-upload lambda ready\"\x7d"

/-- The `handler` function of `lambdas/api/src/main.rs`: builder with status
200, a content-type header, and the fixed body; the event is unused. -/
def apiHandler (_event : Request) : Except String Response :=
  Builder.respBody
    (Builder.header (Builder.status Response.builder 200) "content-type" "application/json")
    apiLambdaBody

/-- The `handler` function of `lambdas/media-upload/src/main.rs`: identical to
the api handler except for the body text. -/
def mediaUploadHandler (_event : Request) : Except String Response :=
  Builder.respBody
    (Builder.header (Builder.status Response.builder 200) "content-type" "application/json")
    mediaUploadLambdaBody

/-- The status code determined by a variant tag alone: the authoritative table
Config→500, Validation→400, NotFound→404, Internal→500, Aws→502,
Serialization→400. -/
def statusOfTag : ErrorTag → Nat
  | .config => 500
  | .validation => 400
  | .notFound => 404
  | .internal => 500
  | .aws => 502
  | .serialization => 400

/-- `GlitchError.status_code` factors through the variant tag. -/
theorem GlitchError.glitch_status_code_eq_statusOfTag (e : GlitchError ε) :
    e.status_code = statusOfTag e.tag := by
  cases e <;> rfl

/-- `StudioError.status_code` factors through the variant tag. -/
theorem StudioError.studio_status_code_eq_statusOfTag (e : StudioError ε) :
    e.status_code = statusOfTag e.tag := by
  cases e <;> rfl

/-- C1: for every constructed error value, `status_code` returns exactly the
value of the authoritative table — Config→500, Validation→400, NotFound→404,
Internal→500, Aws→502, Serialization→400 — in both the `GlitchError` and the
`StudioError` instantiation, for every message, cause and wrapped error. -/
theorem status_code_matches_table (ε : Type) (m : String) (s : Option ε) (j : SerdeJsonError) :
    (GlitchError.Config m : GlitchError ε).status_code = 500 ∧
    (GlitchError.Validation m : GlitchError ε).status_code = 400 ∧
    (GlitchError.NotFound m : GlitchError ε).status_code = 404 ∧
    (GlitchError.Internal m : GlitchError ε).status_code = 500 ∧
    (GlitchError.Aws m s).status_code = 502 ∧
    (GlitchError.Serialization j : GlitchError ε).status_code = 400 ∧
    (StudioError.Config m : StudioError ε).status_code = 500 ∧
    (StudioError.Validation m : StudioError ε).status_code = 400 ∧
    (StudioError.NotFound m : StudioError ε).status_code = 404 ∧
    (StudioError.Internal m : StudioError ε).status_code = 500 ∧
    (StudioError.Aws m s).status_code = 502 ∧
    (StudioError.Serialization j : StudioError ε).status_code = 400 :=
  ⟨rfl, rfl, rfl, rfl, rfl, rfl, rfl, rfl, rfl, rfl, rfl, rfl⟩

/-- C2: `status_code` is a pure, total function of the variant tag alone — two
error values with the same tag (any payloads) classify identically, and the
resulting code is always one of 400, 404, 500, 502 — for both error types. -/
theorem status_code_pure_in_tag (ε : Type) (e₁ e₂ : GlitchError ε) (f₁ f₂ : StudioError ε)
    (hg : e₁.tag = e₂.tag) (hs : f₁.tag = f₂.tag) :
    e₁.status_code = e₂.status_code ∧
    f₁.status_code = f₂.status_code ∧
    e₁.status_code ∈ ([400, 404, 500, 502] : List Nat) ∧
    f₁.status_code ∈ ([400, 404, 500, 502] : List Nat) := by
  refine ⟨?_, ?_, ?_, ?_⟩
  · rw [GlitchError.glitch_status_code_eq_statusOfTag, GlitchError.glitch_status_code_eq_statusOfTag, hg]
  · rw [StudioError.studio_status_code_eq_statusOfTag, StudioError.studio_status_code_eq_statusOfTag, hs]
  · cases e₁ <;> simp [GlitchError.status_code]
  · cases f₁ <;> simp [StudioError.status_code]

/-- Witness for C2 at the spec's own example payloads: `Validation "x"` and
`Validation ""` share a tag, so they classify identically, into the range. -/
theorem status_code_pure_in_tag_witness :
    (GlitchError.Validation "x" : GlitchError Unit).status_code =
      (GlitchError.Validation "" : GlitchError Unit).status_code ∧
    (StudioError.Validation "x" : StudioError Unit).status_code =
      (StudioError.Validation "" : StudioError Unit).status_code ∧
    (GlitchError.Validation "x" : GlitchError Unit).status_code ∈ ([400, 404, 500, 502] : List Nat) ∧
    (StudioError.Validation "x" : StudioError Unit).status_code ∈ ([400, 404, 500, 502] : List Nat) :=
  status_code_pure_in_tag Unit (GlitchError.Validation "x") (GlitchError.Validation "")
    (StudioError.Validation "x") (StudioError.Validation "") rfl rfl

/-- C3: converting any `serde_json` failure value through the generated `From`
impl yields the `Serialization` variant, and classifying it returns 400 (shown
for both error types). -/
theorem serde_conversion_serialization_400 (ε : Type) (j : SerdeJsonError) :
    (GlitchError.fromSerdeJson j : GlitchError ε) = GlitchError.Serialization j ∧
    (GlitchError.fromSerdeJson j : GlitchError ε).tag = ErrorTag.serialization ∧
    (GlitchError.fromSerdeJson j : GlitchError ε).status_code = 400 ∧
    (StudioError.fromSerdeJson j : StudioError ε) = StudioError.Serialization j ∧
    (StudioError.fromSerdeJson j : StudioError ε).tag = ErrorTag.serialization ∧
    (StudioError.fromSerdeJson j : StudioError ε).status_code = 400 :=
  ⟨rfl, rfl, rfl, rfl, rfl, rfl⟩

/-- C4: `aws message` constructs an `Aws`-variant error with no cause
(`source = none`), `aws_with_source message cause` constructs an `Aws`-variant
error, and both classify to 502, for every message and cause. -/
theorem aws_constructors_502 (ε : Type) (m : String) (c : ε) :
    GlitchError.aws m = GlitchError.Aws m (none : Option ε) ∧
    (GlitchError.aws m : GlitchError ε).awsSource = none ∧
    (GlitchError.aws m : GlitchError ε).tag = ErrorTag.aws ∧
    (GlitchError.aws_with_source m c).tag = ErrorTag.aws ∧
    (GlitchError.aws m : GlitchError ε).status_code = 502 ∧
    (GlitchError.aws_with_source m c).status_code = 502 :=
  ⟨rfl, rfl, rfl, rfl, rfl, rfl⟩

/-- C5: `aws_with_source message cause` stores the message unchanged and the
cause present and retrievable equal to the one passed in, and attaching the
cause leaves the classified status code at 502, equal to the cause-free one. -/
theorem aws_with_source_retains_cause (ε : Type) (m : String) (c : ε) :
    GlitchError.aws_with_source m c = GlitchError.Aws m (some c) ∧
    (GlitchError.aws_with_source m c).awsMessage = some m ∧
    (GlitchError.aws_with_source m c).awsSource = some c ∧
    (GlitchError.aws_with_source m c).status_code = 502 ∧
    (GlitchError.aws_with_source m c).status_code = (GlitchError.aws m : GlitchError ε).status_code :=
  ⟨rfl, rfl, rfl, rfl, rfl⟩

/-- C6: construction is total and infallible — for every message string
(including the empty string and strings with control characters, since the
message is universally quantified) and every cause and wrapped error, each
constructor returns a well-formed value of the intended variant, with no
error path. -/
theorem construction_infallible (ε : Type) (m : String) (c : ε) (j : SerdeJsonError) :
    (GlitchError.Config m : GlitchError ε).tag = ErrorTag.config ∧
    (GlitchError.Validation m : GlitchError ε).tag = ErrorTag.validation ∧
    (GlitchError.NotFound m : GlitchError ε).tag = ErrorTag.notFound ∧
    (GlitchError.Internal m : GlitchError ε).tag = ErrorTag.internal ∧
    (GlitchError.aws m : GlitchError ε).tag = ErrorTag.aws ∧
    (GlitchError.aws_with_source m c).tag = ErrorTag.aws ∧
    (GlitchError.Serialization j : GlitchError ε).tag = ErrorTag.serialization ∧
    (StudioError.Config m : StudioError ε).tag = ErrorTag.config ∧
    (StudioError.Validation m : StudioError ε).tag = ErrorTag.validation ∧
    (StudioError.NotFound m : StudioError ε).tag = ErrorTag.notFound ∧
    (StudioError.Internal m : StudioError ε).tag = ErrorTag.internal ∧
    (StudioError.aws m : StudioError ε).tag = ErrorTag.aws ∧
    (StudioError.aws_with_source m c).tag = ErrorTag.aws ∧
    (StudioError.Serialization j : StudioError ε).tag = ErrorTag.serialization :=
  ⟨rfl, rfl, rfl, rfl, rfl, rfl, rfl, rfl, rfl, rfl, rfl, rfl, rfl, rfl⟩

/-- C7: the two error types are behaviourally identical under the evident
variant-for-variant correspondence — the correspondence is a bijection, it
preserves `status_code` in both directions, and it carries each constructor
(`aws`, `aws_with_source`, the serde `From` conversion) to its counterpart. -/
theorem glitch_studio_equivalent (ε : Type) (e : GlitchError ε) (f : StudioError ε)
    (m : String) (c : ε) (j : SerdeJsonError) :
    (GlitchError.toStudio e).status_code = e.status_code ∧
    (StudioError.toGlitch f).status_code = f.status_code ∧
    StudioError.toGlitch (GlitchError.toStudio e) = e ∧
    GlitchError.toStudio (StudioError.toGlitch f) = f ∧
    GlitchError.toStudio (GlitchError.aws m : GlitchError ε) = StudioError.aws m ∧
    GlitchError.toStudio (GlitchError.aws_with_source m c) = StudioError.aws_with_source m c ∧
    GlitchError.toStudio (GlitchError.fromSerdeJson j : GlitchError ε) = StudioError.fromSerdeJson j := by
  refine ⟨?_, ?_, ?_, ?_, rfl, rfl, rfl⟩
  · cases e <;> rfl
  · cases f <;> rfl
  · cases e <;> rfl
  · cases f <;> rfl

/-- C8: each Lambda handler returns, for every incoming request, the same
success response — status 200, a single content-type header of
application/json, and its fixed hard-coded JSON body — never branching on the
input (two arbitrary requests give identical responses). -/
theorem handlers_return_fixed_response (event other : Request) :
    apiHandler event =
      Except.ok ⟨200, [("content-type", "application/json")], apiLambdaBody⟩ ∧
    mediaUploadHandler event =
      Except.ok ⟨200, [("content-type", "application/json")], mediaUploadLambdaBody⟩ ∧
    apiHandler event = apiHandler other ∧
    mediaUploadHandler event = mediaUploadHandler other :=
  ⟨rfl, rfl, rfl, rfl⟩

/-- C9: the human-readable rendering of every error value is its stored
message prefixed by the fixed variant-specific label, in both error types;
for the `Aws` variant the rendered text depends only on the message, never on
the wrapped cause. -/
theorem display_is_label_plus_message (ε : Type) (m : String) (s : Option ε)
    (c : ε) (j : SerdeJsonError) :
    (GlitchError.Config m : GlitchError ε).display = "configuration error: " ++ m ∧
    (GlitchError.Validation m : GlitchError ε).display = "validation error: " ++ m ∧
    (GlitchError.NotFound m : GlitchError ε).display = "not found: " ++ m ∧
    (GlitchError.Internal m : GlitchError ε).display = "internal error: " ++ m ∧
    (GlitchError.Aws m s).display = "aws error: " ++ m ∧
    (GlitchError.Serialization j : GlitchError ε).display = "serialization error: " ++ j.rendered ∧
    (GlitchError.aws_with_source m c).display = (GlitchError.aws m : GlitchError ε).display ∧
    (StudioError.Config m : StudioError ε).display = "configuration error: " ++ m ∧
    (StudioError.Validation m : StudioError ε).display = "validation error: " ++ m ∧
    (StudioError.NotFound m : StudioError ε).display = "not found: " ++ m ∧
    (StudioError.Internal m : StudioError ε).display = "internal error: " ++ m ∧
    (StudioError.Aws m s).display = "aws error: " ++ m ∧
    (StudioError.Serialization j : StudioError ε).display = "serialization error: " ++ j.rendered ∧
    (StudioError.aws_with_source m c).display = (StudioError.aws m : StudioError ε).display :=
  ⟨rfl, rfl, rfl, rfl, rfl, rfl, rfl, rfl, rfl, rfl, rfl, rfl, rfl, rfl⟩

/-- C10: each handler's error branch is unreachable — the status 200, the
content-type header name, and the application/json value are all valid for the
response builder, so on every request both handlers return `ok` and never
propagate an error to the runtime. -/
theorem handler_error_branch_unreachable (event : Request) :
    isValidStatusCode 200 = true ∧
    isValidHeaderName "content-type" = true ∧
    isValidHeaderValue "application/json" = true ∧
    (∃ r, apiHandler event = Except.ok r) ∧
    (∃ r, mediaUploadHandler event = Except.ok r) :=
  ⟨by decide, by decide, by decide, ⟨_, rfl⟩, ⟨_, rfl⟩⟩
